import Mathlib

/-!
Verification of the PVC default-storage-class admission check
(`plugin/pkg/admission/storageclass/default`).

The repository's files in view are the plugin's test,
`plugin/pkg/admission/storageclass/default/admission_test.go`, and a
generated REST client (mechanical CRUD plumbing, out of scope here). The
plugin file `admission.go` itself is not among the staged sources, so the
Default-Assignment Check (`Admit`, `getDefaultClass`, the is-default marker
parsing) is modelled from the spec, §3–§4 and §7, and exercised against the
fixtures of `admission_test.go`.

Data model: annotation maps are association lists `List (String × String)`
wrapped in `Option` — Go distinguishes a `nil` map from an empty one, and the
test's `claimWithNoClass` relies on that distinction.
-/

/-- Annotation key marking a StorageClass as the cluster default
(the spec's "is-default marker tag"). -/
def isDefaultAnn : String := "storageclass.beta.kubernetes.io/is-default-class"

/-- Annotation key on a claim naming the requested storage class
(the spec's "requested-class tag"). -/
def classAnn : String := "volume.beta.kubernetes.io/storage-class"

/-- First-match lookup in an association list, mirroring a Go map read. -/
def lookupKey : List (String × String) → String → Option String
  | [], _ => none
  | (k, v) :: rest, key => if k = key then some v else lookupKey rest key

/-- Set a key in an association list, mirroring a Go map write:
overwrite the existing entry or append a fresh one. -/
def setKey : List (String × String) → String → String → List (String × String)
  | [], key, val => [(key, val)]
  | (k, v) :: rest, key, val =>
      if k = key then (key, val) :: rest else (k, v) :: setKey rest key val

/-- Read a key from an optional annotation map; a `nil` map has no keys. -/
def annGet (m : Option (List (String × String))) (key : String) : Option String :=
  match m with
  | none => none
  | some l => lookupKey l key

/-- A storage class: unique name, optional annotation map, provisioner
(opaque to this check). From the test fixtures' shape. -/
structure StorageClass where
  name : String
  annotations : Option (List (String × String))
  provisioner : String
deriving DecidableEq, Repr

/-- A persistent volume claim: (namespace, name) identity plus an optional
annotation map. From the test fixtures' shape. -/
structure PersistentVolumeClaim where
  name : String
  nspace : String
  annotations : Option (List (String × String))
deriving DecidableEq, Repr

/-- The admission operation of the incoming request. -/
inductive Operation where
  | create
  | update
  | del
  | connect
deriving DecidableEq, Repr

/-- The object carried by an admission request: a claim, or some other
resource this check does not handle. -/
inductive APIObject where
  | pvc (claim : PersistentVolumeClaim)
  | other (kind : String)
deriving DecidableEq, Repr

/-- The admission attributes record handed to the check: resource kind,
operation, and the incoming object. -/
structure Attributes where
  resource : String
  operation : Operation
  obj : APIObject
deriving DecidableEq, Repr

/-- Modelled from the spec: a class's is-default marker "is considered true
only when its value is exactly the literal string `\"true\"`; any other value
(missing, empty, `\"false\"`, or any other text) means not-default" (§3). -/
def isDefaultClass (sc : StorageClass) : Bool :=
  annGet sc.annotations isDefaultAnn = some "true"

/-- The classes of the Class Index snapshot whose is-default marker is true
(spec §4.2 step 2). -/
def defaultClasses (classes : List StorageClass) : List StorageClass :=
  classes.filter isDefaultClass

/-- Modelled from the spec: resolve the default class from the snapshot
(§4.2 step 3): zero defaults → none, exactly one → that class, two or more →
a rejection naming the conflicting classes (§7). `admission.go` is not among
the staged sources. -/
def getDefaultClass (classes : List StorageClass) :
    Except String (Option StorageClass) :=
  match defaultClasses classes with
  | [] => Except.ok none
  | [d] => Except.ok (some d)
  | d1 :: d2 :: rest =>
      Except.error ("ambiguous default: more than one StorageClass is marked default: "
        ++ String.intercalate ", " ((d1 :: d2 :: rest).map StorageClass.name))

/-- Whether the claim carries the requested-class tag at all (any value,
the empty string included) — the test's `HasStorageClassAnnotation` gate. -/
def hasClassAnn (claim : PersistentVolumeClaim) : Bool :=
  (annGet claim.annotations classAnn).isSome

/-- Stamp the claim's requested-class tag, creating the annotation map when
it is absent (the Go code allocates the map before writing). -/
def setClass (claim : PersistentVolumeClaim) (className : String) :
    PersistentVolumeClaim :=
  { claim with
    annotations := some (setKey (claim.annotations.getD []) classAnn className) }

/-- Modelled from the spec: the Default-Assignment Check `admit` (§4.2):
no-op for a non-claim resource or a non-create operation; pass through a
claim already carrying the requested-class tag; otherwise resolve the default
class and either pass through (zero defaults), stamp the claim (one default),
or reject (two or more). `admission.go` is not among the staged sources. -/
def Admit (classes : List StorageClass) (a : Attributes) :
    Except String APIObject :=
  if a.resource = "persistentvolumeclaims" ∧ a.operation = Operation.create then
    match a.obj with
    | APIObject.pvc claim =>
        if hasClassAnn claim = true then Except.ok (APIObject.pvc claim)
        else
          match getDefaultClass classes with
          | Except.ok none => Except.ok (APIObject.pvc claim)
          | Except.ok (some d) => Except.ok (APIObject.pvc (setClass claim d.name))
          | Except.error e => Except.error e
    | APIObject.other k => Except.ok (APIObject.other k)
  else
    Except.ok a.obj

/-! Fixtures from `admission_test.go`. -/

/-- Test fixture: class `default1` annotated `is-default = "true"`. -/
def defaultClass1 : StorageClass :=
  { name := "default1", annotations := some [(isDefaultAnn, "true")],
    provisioner := "default1" }

/-- Test fixture: class `default2` annotated `is-default = "true"`. -/
def defaultClass2 : StorageClass :=
  { name := "default2", annotations := some [(isDefaultAnn, "true")],
    provisioner := "default2" }

/-- Test fixture: class with explicit `is-default = "false"`. -/
def classWithFalseDefault : StorageClass :=
  { name := "nondefault1", annotations := some [(isDefaultAnn, "false")],
    provisioner := "nondefault1" }

/-- Test fixture: class with no annotation map at all. -/
def classWithNoDefault : StorageClass :=
  { name := "nondefault2", annotations := none, provisioner := "nondefault1" }

/-- Test fixture: class with an empty-string `is-default` value. -/
def classWithEmptyDefault : StorageClass :=
  { name := "nondefault2", annotations := some [(isDefaultAnn, "")],
    provisioner := "nondefault1" }

/-- Test fixture: claim with requested class `"foo"`. -/
def claimWithClass : PersistentVolumeClaim :=
  { name := "claimWithClass", nspace := "ns",
    annotations := some [(classAnn, "foo")] }

/-- Test fixture: claim with the requested-class tag set to `""`. -/
def claimWithEmptyClass : PersistentVolumeClaim :=
  { name := "claimWithEmptyClass", nspace := "ns",
    annotations := some [(classAnn, "")] }

/-- Test fixture: claim with no annotation map at all. -/
def claimWithNoClass : PersistentVolumeClaim :=
  { name := "claimWithNoClass", nspace := "ns", annotations := none }

/-- The attributes record the test builds: a create of a claim on the
`persistentvolumeclaims` resource. -/
def pvcCreateAttrs (claim : PersistentVolumeClaim) : Attributes :=
  { resource := "persistentvolumeclaims", operation := Operation.create,
    obj := APIObject.pvc claim }

/-! Helper lemmas about the annotation-map operations. -/

theorem lookupKey_setKey_self (l : List (String × String)) (key val : String) :
    lookupKey (setKey l key val) key = some val := by
  induction l with
  | nil => simp [setKey, lookupKey]
  | cons p rest ih =>
    obtain ⟨k, v⟩ := p
    by_cases hk : k = key
    · simp [setKey, hk, lookupKey]
    · simp [setKey, hk, lookupKey, ih]

theorem lookupKey_setKey_ne (l : List (String × String)) (key key' val : String)
    (h : key' ≠ key) :
    lookupKey (setKey l key val) key' = lookupKey l key' := by
  induction l with
  | nil => simp [setKey, lookupKey, Ne.symm h]
  | cons p rest ih =>
    obtain ⟨k, v⟩ := p
    by_cases hk : k = key
    · subst hk
      simp [setKey, lookupKey, Ne.symm h]
    · simp [setKey, hk, lookupKey, ih]

theorem annGet_setClass_self (claim : PersistentVolumeClaim) (n : String) :
    annGet (setClass claim n).annotations classAnn = some n := by
  cases h : claim.annotations <;>
    simp [setClass, annGet, h, lookupKey_setKey_self]

theorem annGet_setClass_ne (claim : PersistentVolumeClaim) (n key : String)
    (h : key ≠ classAnn) :
    annGet (setClass claim n).annotations key = annGet claim.annotations key := by
  cases hm : claim.annotations with
  | none => simp [setClass, annGet, hm, setKey, lookupKey, Ne.symm h]
  | some l => simp [setClass, annGet, hm, lookupKey_setKey_ne l classAnn key n h]

theorem hasClassAnn_setClass (claim : PersistentVolumeClaim) (n : String) :
    hasClassAnn (setClass claim n) = true := by
  simp [hasClassAnn, annGet_setClass_self]

theorem hasClassAnn_false_of_none (claim : PersistentVolumeClaim)
    (h : annGet claim.annotations classAnn = none) :
    hasClassAnn claim = false := by
  simp [hasClassAnn, h]

/-! Helper lemmas about default-class resolution. -/

theorem getDefaultClass_of_nil (classes : List StorageClass)
    (h : defaultClasses classes = []) :
    getDefaultClass classes = Except.ok none := by
  unfold getDefaultClass
  rw [h]

theorem getDefaultClass_of_single (classes : List StorageClass) (d : StorageClass)
    (h : defaultClasses classes = [d]) :
    getDefaultClass classes = Except.ok (some d) := by
  unfold getDefaultClass
  rw [h]

theorem getDefaultClass_of_multi (classes : List StorageClass)
    (h : 2 ≤ (defaultClasses classes).length) :
    ∃ msg, getDefaultClass classes = Except.error msg := by
  unfold getDefaultClass
  match hd : defaultClasses classes with
  | [] => rw [hd] at h; simp at h
  | [d] => rw [hd] at h; simp at h
  | d1 :: d2 :: rest => exact ⟨_, rfl⟩

theorem Admit_pvc_create (classes : List StorageClass) (a : Attributes)
    (claim : PersistentVolumeClaim)
    (hres : a.resource = "persistentvolumeclaims")
    (hop : a.operation = Operation.create)
    (hobj : a.obj = APIObject.pvc claim) :
    Admit classes a =
      (if hasClassAnn claim = true then Except.ok (APIObject.pvc claim)
       else
         match getDefaultClass classes with
         | Except.ok none => Except.ok (APIObject.pvc claim)
         | Except.ok (some d) => Except.ok (APIObject.pvc (setClass claim d.name))
         | Except.error e => Except.error e) := by
  unfold Admit
  rw [if_pos ⟨hres, hop⟩, hobj]

theorem Admit_eq_of_single (classes : List StorageClass) (a : Attributes)
    (claim : PersistentVolumeClaim) (d : StorageClass)
    (hres : a.resource = "persistentvolumeclaims")
    (hop : a.operation = Operation.create)
    (hobj : a.obj = APIObject.pvc claim)
    (hno : annGet claim.annotations classAnn = none)
    (hone : defaultClasses classes = [d]) :
    Admit classes a = Except.ok (APIObject.pvc (setClass claim d.name)) := by
  rw [Admit_pvc_create classes a claim hres hop hobj]
  simp [hasClassAnn_false_of_none claim hno,
    getDefaultClass_of_single classes d hone]

theorem Admit_eq_of_zero (classes : List StorageClass) (a : Attributes)
    (claim : PersistentVolumeClaim)
    (hres : a.resource = "persistentvolumeclaims")
    (hop : a.operation = Operation.create)
    (hobj : a.obj = APIObject.pvc claim)
    (hno : annGet claim.annotations classAnn = none)
    (hzero : defaultClasses classes = []) :
    Admit classes a = Except.ok (APIObject.pvc claim) := by
  rw [Admit_pvc_create classes a claim hres hop hobj]
  simp [hasClassAnn_false_of_none claim hno, getDefaultClass_of_nil classes hzero]

theorem Admit_eq_error_of_resolution (classes : List StorageClass)
    (a : Attributes) (claim : PersistentVolumeClaim) (msg : String)
    (hres : a.resource = "persistentvolumeclaims")
    (hop : a.operation = Operation.create)
    (hobj : a.obj = APIObject.pvc claim)
    (hno : annGet claim.annotations classAnn = none)
    (hmsg : getDefaultClass classes = Except.error msg) :
    Admit classes a = Except.error msg := by
  rw [Admit_pvc_create classes a claim hres hop hobj]
  simp [hasClassAnn_false_of_none claim hno, hmsg]

theorem Admit_eq_of_tag (classes : List StorageClass) (a : Attributes)
    (claim : PersistentVolumeClaim)
    (hobj : a.obj = APIObject.pvc claim)
    (hhas : hasClassAnn claim = true) :
    Admit classes a = Except.ok (APIObject.pvc claim) := by
  unfold Admit
  by_cases hcond : a.resource = "persistentvolumeclaims" ∧
      a.operation = Operation.create
  · rw [if_pos hcond, hobj]
    simp [hhas]
  · rw [if_neg hcond, hobj]

theorem Admit_eq_of_mismatch (classes : List StorageClass) (a : Attributes)
    (hneg : ¬(a.resource = "persistentvolumeclaims" ∧
      a.operation = Operation.create)) :
    Admit classes a = Except.ok a.obj := by
  unfold Admit
  rw [if_neg hneg]

theorem Admit_eq_of_other (classes : List StorageClass) (a : Attributes)
    (k : String) (hobj : a.obj = APIObject.other k) :
    Admit classes a = Except.ok a.obj := by
  unfold Admit
  by_cases hcond : a.resource = "persistentvolumeclaims" ∧
      a.operation = Operation.create
  · rw [if_pos hcond, hobj]
  · rw [if_neg hcond]

/-- C1: for every claim whose requested-class tag is absent, when the snapshot
contains exactly one class whose is-default marker is true, `Admit` succeeds
and sets the claim's requested-class tag to that class's name. -/
theorem admit_one_default_sets_class (classes : List StorageClass)
    (a : Attributes) (claim : PersistentVolumeClaim) (d : StorageClass)
    (hres : a.resource = "persistentvolumeclaims")
    (hop : a.operation = Operation.create)
    (hobj : a.obj = APIObject.pvc claim)
    (hno : annGet claim.annotations classAnn = none)
    (hone : defaultClasses classes = [d]) :
    Admit classes a = Except.ok (APIObject.pvc (setClass claim d.name)) ∧
    annGet (setClass claim d.name).annotations classAnn = some d.name :=
  ⟨Admit_eq_of_single classes a claim d hres hop hobj hno hone,
   annGet_setClass_self claim d.name⟩

/-- C1 witness: the test's "one default, modify PVC with class=nil" scenario. -/
theorem admit_one_default_sets_class_witness :
    Admit [defaultClass1, classWithFalseDefault, classWithNoDefault,
        classWithEmptyDefault] (pvcCreateAttrs claimWithNoClass)
      = Except.ok (APIObject.pvc (setClass claimWithNoClass defaultClass1.name)) ∧
    annGet (setClass claimWithNoClass defaultClass1.name).annotations classAnn
      = some defaultClass1.name :=
  admit_one_default_sets_class
    [defaultClass1, classWithFalseDefault, classWithNoDefault,
      classWithEmptyDefault]
    (pvcCreateAttrs claimWithNoClass) claimWithNoClass defaultClass1
    rfl rfl rfl rfl rfl

/-- C2: for every claim whose requested-class tag is absent, when the snapshot
contains two or more classes whose is-default marker is true, `Admit` rejects
the request and never returns a (mutated or unmutated) object: multiplicity is
always an error, never resolved by any tie-break. -/
theorem admit_multi_default_rejects (classes : List StorageClass)
    (a : Attributes) (claim : PersistentVolumeClaim)
    (hres : a.resource = "persistentvolumeclaims")
    (hop : a.operation = Operation.create)
    (hobj : a.obj = APIObject.pvc claim)
    (hno : annGet claim.annotations classAnn = none)
    (hmulti : 2 ≤ (defaultClasses classes).length) :
    (∃ msg, Admit classes a = Except.error msg) ∧
    ∀ res, Admit classes a ≠ Except.ok res := by
  obtain ⟨msg, hmsg⟩ := getDefaultClass_of_multi classes hmulti
  have hrej : Admit classes a = Except.error msg :=
    Admit_eq_error_of_resolution classes a claim msg hres hop hobj hno hmsg
  refine ⟨⟨msg, hrej⟩, ?_⟩
  intro res hok
  rw [hrej] at hok
  exact Except.noConfusion hok

/-- C2 witness: the test's "two defaults, error with PVC with class=nil"
scenario. -/
theorem admit_multi_default_rejects_witness :
    (∃ msg, Admit [defaultClass1, defaultClass2, classWithFalseDefault,
        classWithNoDefault, classWithEmptyDefault]
        (pvcCreateAttrs claimWithNoClass) = Except.error msg) ∧
    ∀ res, Admit [defaultClass1, defaultClass2, classWithFalseDefault,
        classWithNoDefault, classWithEmptyDefault]
        (pvcCreateAttrs claimWithNoClass) ≠ Except.ok res :=
  admit_multi_default_rejects
    [defaultClass1, defaultClass2, classWithFalseDefault, classWithNoDefault,
      classWithEmptyDefault]
    (pvcCreateAttrs claimWithNoClass) claimWithNoClass
    rfl rfl rfl rfl (by decide)

/-- C3: for every claim already carrying a requested-class tag of any value
(the empty string included) and for every snapshot, `Admit` succeeds and
returns the claim unmodified. -/
theorem admit_class_present_passthrough (classes : List StorageClass)
    (a : Attributes) (claim : PersistentVolumeClaim) (v : String)
    (hobj : a.obj = APIObject.pvc claim)
    (htag : annGet claim.annotations classAnn = some v) :
    Admit classes a = Except.ok (APIObject.pvc claim) := by
  have hhas : hasClassAnn claim = true := by simp [hasClassAnn, htag]
  exact Admit_eq_of_tag classes a claim hobj hhas

/-- C3 witness: the test's "two defaults, no modification of PVC with
class=''" scenario. -/
theorem admit_class_present_passthrough_witness :
    Admit [defaultClass1, defaultClass2, classWithFalseDefault,
        classWithNoDefault, classWithEmptyDefault]
      (pvcCreateAttrs claimWithEmptyClass)
      = Except.ok (APIObject.pvc claimWithEmptyClass) :=
  admit_class_present_passthrough
    [defaultClass1, defaultClass2, classWithFalseDefault, classWithNoDefault,
      classWithEmptyDefault]
    (pvcCreateAttrs claimWithEmptyClass) claimWithEmptyClass "" rfl rfl

/-- C4: for every claim whose requested-class tag is absent, when the snapshot
contains zero classes whose is-default marker is true, `Admit` succeeds, the
claim comes back unmodified, and its requested-class tag is still absent. -/
theorem admit_zero_defaults_passthrough (classes : List StorageClass)
    (a : Attributes) (claim : PersistentVolumeClaim)
    (hres : a.resource = "persistentvolumeclaims")
    (hop : a.operation = Operation.create)
    (hobj : a.obj = APIObject.pvc claim)
    (hno : annGet claim.annotations classAnn = none)
    (hzero : defaultClasses classes = []) :
    Admit classes a = Except.ok (APIObject.pvc claim) ∧
    annGet claim.annotations classAnn = none :=
  ⟨Admit_eq_of_zero classes a claim hres hop hobj hno hzero, hno⟩

/-- C4 witness: the test's "no default, no modification of PVCs" scenario. -/
theorem admit_zero_defaults_passthrough_witness :
    Admit [classWithFalseDefault, classWithNoDefault, classWithEmptyDefault]
      (pvcCreateAttrs claimWithNoClass)
      = Except.ok (APIObject.pvc claimWithNoClass) ∧
    annGet claimWithNoClass.annotations classAnn = none :=
  admit_zero_defaults_passthrough
    [classWithFalseDefault, classWithNoDefault, classWithEmptyDefault]
    (pvcCreateAttrs claimWithNoClass) claimWithNoClass
    rfl rfl rfl rfl (by decide)

/-- C5: a storage class's is-default marker evaluates to true exactly when the
marker tag's value is the literal string "true" (missing map, missing key,
empty value, "false" or any other text is not-default), and a snapshot made
only of such not-default classes yields zero defaults. -/
theorem isDefaultClass_iff_true (sc : StorageClass) :
    (isDefaultClass sc = true ↔
      annGet sc.annotations isDefaultAnn = some "true") ∧
    ∀ classes : List StorageClass,
      (∀ c ∈ classes, annGet c.annotations isDefaultAnn ≠ some "true") →
      defaultClasses classes = [] := by
  constructor
  · simp [isDefaultClass]
  · intro classes h
    unfold defaultClasses
    rw [List.filter_eq_nil_iff]
    intro c hc
    simp only [isDefaultClass, decide_eq_true_eq]
    exact h c hc

/-- C5 witness: the test's three not-default fixtures ("false", no map, empty
value) produce an empty default set, and `defaultClass1` is recognised. -/
theorem isDefaultClass_iff_true_witness :
    isDefaultClass defaultClass1 = true ∧
    defaultClasses [classWithFalseDefault, classWithNoDefault,
      classWithEmptyDefault] = [] :=
  ⟨(isDefaultClass_iff_true defaultClass1).1.mpr rfl,
   (isDefaultClass_iff_true defaultClass1).2
     [classWithFalseDefault, classWithNoDefault, classWithEmptyDefault]
     (by decide)⟩

/-- C6: for every incoming object whose resource kind is not the claim kind,
or every operation that is not a create, `Admit` succeeds and passes the
object through completely unmodified. -/
theorem admit_noop_other_kind_or_op (classes : List StorageClass)
    (a : Attributes)
    (h : a.resource ≠ "persistentvolumeclaims" ∨
      a.operation ≠ Operation.create) :
    Admit classes a = Except.ok a.obj := by
  have hneg : ¬(a.resource = "persistentvolumeclaims" ∧
      a.operation = Operation.create) := by
    rintro ⟨h1, h2⟩
    rcases h with h | h
    · exact h h1
    · exact h h2
  exact Admit_eq_of_mismatch classes a hneg

/-- C6 witness: an update of a pod-shaped object passes through unchanged even
with two defaults present. -/
theorem admit_noop_other_kind_or_op_witness :
    Admit [defaultClass1, defaultClass2]
      { resource := "pods", operation := Operation.update,
        obj := APIObject.other "Pod" }
      = Except.ok (APIObject.other "Pod") :=
  admit_noop_other_kind_or_op [defaultClass1, defaultClass2]
    { resource := "pods", operation := Operation.update,
      obj := APIObject.other "Pod" }
    (Or.inl (by decide))

/-- C7: for every successful `Admit` call that returns a claim, the only field
possibly changed is the requested-class tag: the claim's name, namespace, and
every annotation under any other key are identical before and after. -/
theorem admit_frame_only_class_ann (classes : List StorageClass)
    (a : Attributes) (claim claim' : PersistentVolumeClaim)
    (hobj : a.obj = APIObject.pvc claim)
    (hok : Admit classes a = Except.ok (APIObject.pvc claim')) :
    claim'.name = claim.name ∧ claim'.nspace = claim.nspace ∧
    ∀ key, key ≠ classAnn →
      annGet claim'.annotations key = annGet claim.annotations key := by
  unfold Admit at hok
  by_cases hcond : a.resource = "persistentvolumeclaims" ∧
      a.operation = Operation.create
  · rw [if_pos hcond, hobj] at hok
    simp only [] at hok
    by_cases htag : hasClassAnn claim = true
    · rw [if_pos htag] at hok
      simp only [Except.ok.injEq, APIObject.pvc.injEq] at hok
      subst hok
      exact ⟨rfl, rfl, fun _ _ => rfl⟩
    · rw [if_neg htag] at hok
      cases hg : getDefaultClass classes with
      | ok od =>
        cases od with
        | none =>
          rw [hg] at hok
          simp only [Except.ok.injEq, APIObject.pvc.injEq] at hok
          subst hok
          exact ⟨rfl, rfl, fun _ _ => rfl⟩
        | some d =>
          rw [hg] at hok
          simp only [Except.ok.injEq, APIObject.pvc.injEq] at hok
          subst hok
          exact ⟨rfl, rfl, fun key hkey => annGet_setClass_ne claim d.name key hkey⟩
      | error e =>
        rw [hg] at hok
        simp only [] at hok
        exact Except.noConfusion hok
  · rw [if_neg hcond, hobj] at hok
    simp only [Except.ok.injEq, APIObject.pvc.injEq] at hok
    subst hok
    exact ⟨rfl, rfl, fun _ _ => rfl⟩

/-- C7 witness: the mutating one-default call on `claimWithNoClass` keeps the
name, the namespace, and the (absent) is-default annotation unchanged. -/
theorem admit_frame_only_class_ann_witness :
    (setClass claimWithNoClass "default1").name = claimWithNoClass.name ∧
    annGet (setClass claimWithNoClass "default1").annotations isDefaultAnn
      = annGet claimWithNoClass.annotations isDefaultAnn :=
  ⟨(admit_frame_only_class_ann [defaultClass1] (pvcCreateAttrs claimWithNoClass)
      claimWithNoClass (setClass claimWithNoClass "default1") rfl rfl).1,
   (admit_frame_only_class_ann [defaultClass1] (pvcCreateAttrs claimWithNoClass)
      claimWithNoClass (setClass claimWithNoClass "default1") rfl rfl).2.2
     isDefaultAnn (by decide)⟩

/-- C8: idempotence — when a first `Admit` call succeeds with result object,
a second call on that result under the same snapshot (and the same resource
kind and operation) succeeds and changes nothing further. -/
theorem admit_idempotent (classes : List StorageClass) (res : String)
    (op : Operation) (obj obj' : APIObject)
    (h : Admit classes ⟨res, op, obj⟩ = Except.ok obj') :
    Admit classes ⟨res, op, obj'⟩ = Except.ok obj' := by
  unfold Admit at h ⊢
  dsimp only at h ⊢
  by_cases hcond : res = "persistentvolumeclaims" ∧ op = Operation.create
  · rw [if_pos hcond] at h ⊢
    cases obj with
    | other k =>
      simp only [] at h
      simp only [Except.ok.injEq] at h
      subst h
      rfl
    | pvc claim =>
      simp only [] at h
      by_cases htag : hasClassAnn claim = true
      · rw [if_pos htag] at h
        simp only [Except.ok.injEq] at h
        subst h
        simp only []
        rw [if_pos htag]
      · rw [if_neg htag] at h
        cases hg : getDefaultClass classes with
        | ok od =>
          cases od with
          | none =>
            rw [hg] at h
            simp only [] at h
            simp only [Except.ok.injEq] at h
            subst h
            simp only []
            rw [if_neg htag]
          | some d =>
            rw [hg] at h
            simp only [] at h
            simp only [Except.ok.injEq] at h
            subst h
            simp only []
            rw [if_pos (hasClassAnn_setClass claim d.name)]
        | error e =>
          rw [hg] at h
          simp only [] at h
          exact Except.noConfusion h
  · rw [if_neg hcond]

/-- C8 witness: rerunning `Admit` on the claim the one-default call just
stamped leaves it untouched. -/
theorem admit_idempotent_witness :
    Admit [defaultClass1] ⟨"persistentvolumeclaims", Operation.create,
        APIObject.pvc (setClass claimWithNoClass "default1")⟩
      = Except.ok (APIObject.pvc (setClass claimWithNoClass "default1")) :=
  admit_idempotent [defaultClass1] "persistentvolumeclaims" Operation.create
    (APIObject.pvc claimWithNoClass)
    (APIObject.pvc (setClass claimWithNoClass "default1")) rfl

/-- C9 counterexample: a claim whose annotation map is entirely absent is NOT
handled without error for every snapshot — with two defaults present the
create is rejected, exactly as for a claim whose map merely lacks the key
(the test's "two defaults, error with PVC with class=nil" row). -/
theorem admit_nil_map_counterexample :
    claimWithNoClass.annotations = none ∧
    Admit [defaultClass1, defaultClass2] (pvcCreateAttrs claimWithNoClass)
      = Except.error
        ("ambiguous default: more than one StorageClass is marked default: "
          ++ "default1, default2") :=
  ⟨rfl, rfl⟩

/-- C9 (amended): a claim whose annotation map is entirely absent is treated
as "no preference expressed": `Admit` succeeds on every snapshot containing at
most one default class, and when exactly one default exists it creates the
annotation map and sets the requested-class tag in it. -/
theorem admit_nil_map (classes : List StorageClass) (a : Attributes)
    (claim : PersistentVolumeClaim)
    (hres : a.resource = "persistentvolumeclaims")
    (hop : a.operation = Operation.create)
    (hobj : a.obj = APIObject.pvc claim)
    (hmap : claim.annotations = none) :
    ((defaultClasses classes).length ≤ 1 →
      ∃ res, Admit classes a = Except.ok res) ∧
    ∀ d, defaultClasses classes = [d] →
      Admit classes a = Except.ok (APIObject.pvc
        { claim with annotations := some [(classAnn, d.name)] }) := by
  have hno : annGet claim.annotations classAnn = none := by
    rw [hmap]
    rfl
  have hstamp : ∀ d : StorageClass, defaultClasses classes = [d] →
      Admit classes a = Except.ok (APIObject.pvc
        { claim with annotations := some [(classAnn, d.name)] }) := by
    intro d hone
    have h1 := Admit_eq_of_single classes a claim d hres hop hobj hno hone
    rw [h1]
    unfold setClass
    rw [hmap]
    rfl
  refine ⟨?_, hstamp⟩
  intro hlen
  match hd : defaultClasses classes with
  | [] =>
    exact ⟨APIObject.pvc claim,
      Admit_eq_of_zero classes a claim hres hop hobj hno hd⟩
  | [d] =>
    exact ⟨_, hstamp d hd⟩
  | d1 :: d2 :: rest =>
    rw [hd] at hlen
    simp at hlen

/-- C9 witness: the one-default snapshot stamps `claimWithNoClass`, creating
its annotation map, and the zero-default snapshot is admitted without error. -/
theorem admit_nil_map_witness :
    (∃ res, Admit [classWithNoDefault] (pvcCreateAttrs claimWithNoClass)
      = Except.ok res) ∧
    Admit [defaultClass1] (pvcCreateAttrs claimWithNoClass)
      = Except.ok (APIObject.pvc
        { claimWithNoClass with
          annotations := some [(classAnn, defaultClass1.name)] }) :=
  ⟨(admit_nil_map [classWithNoDefault] (pvcCreateAttrs claimWithNoClass)
      claimWithNoClass rfl rfl rfl rfl).1 (by decide),
   (admit_nil_map [defaultClass1] (pvcCreateAttrs claimWithNoClass)
      claimWithNoClass rfl rfl rfl rfl).2 defaultClass1 rfl⟩

/-- C10: determinism — the outcome of `Admit` depends only on the claim and
the Class Index snapshot: for any two enumerations of the same snapshot (the
same classes, in any order) the success/failure decision and the resulting
object coincide. For a fixed enumeration, `Admit` is a pure function, so two
invocations on equal inputs are definitionally equal. -/
theorem admit_snapshot_determines_outcome (classes1 classes2 : List StorageClass)
    (a : Attributes) (hperm : List.Perm classes1 classes2) :
    (∀ res, Admit classes1 a = Except.ok res ↔ Admit classes2 a = Except.ok res) ∧
    ∀ m1, Admit classes1 a = Except.error m1 →
      ∃ m2, Admit classes2 a = Except.error m2 := by
  have hp : List.Perm (defaultClasses classes1) (defaultClasses classes2) :=
    hperm.filter isDefaultClass
  by_cases hcond : a.resource = "persistentvolumeclaims" ∧
      a.operation = Operation.create
  case neg =>
    have h1 := Admit_eq_of_mismatch classes1 a hcond
    have h2 := Admit_eq_of_mismatch classes2 a hcond
    refine ⟨fun res => by rw [h1, h2], fun m1 hm => ?_⟩
    rw [h1] at hm
    exact Except.noConfusion hm
  case pos =>
    obtain ⟨hres, hop⟩ := hcond
    cases hobj : a.obj with
    | other k =>
      have h1 := Admit_eq_of_other classes1 a k hobj
      have h2 := Admit_eq_of_other classes2 a k hobj
      refine ⟨fun res => by rw [h1, h2], fun m1 hm => ?_⟩
      rw [h1] at hm
      exact Except.noConfusion hm
    | pvc claim =>
      by_cases htag : hasClassAnn claim = true
      · have h1 := Admit_eq_of_tag classes1 a claim hobj htag
        have h2 := Admit_eq_of_tag classes2 a claim hobj htag
        refine ⟨fun res => by rw [h1, h2], fun m1 hm => ?_⟩
        rw [h1] at hm
        exact Except.noConfusion hm
      · have hno : annGet claim.annotations classAnn = none := by
          cases hv : annGet claim.annotations classAnn with
          | none => rfl
          | some v => exact absurd (by simp [hasClassAnn, hv]) htag
        match hd : defaultClasses classes1 with
        | [] =>
          have hd2 : defaultClasses classes2 = [] := by
            rw [hd] at hp
            exact (List.Perm.nil_eq hp).symm
          have h1 := Admit_eq_of_zero classes1 a claim hres hop hobj hno hd
          have h2 := Admit_eq_of_zero classes2 a claim hres hop hobj hno hd2
          refine ⟨fun res => by rw [h1, h2], fun m1 hm => ?_⟩
          rw [h1] at hm
          exact Except.noConfusion hm
        | [d] =>
          have hd2 : defaultClasses classes2 = [d] := by
            rw [hd] at hp
            exact (List.singleton_perm.mp hp).symm
          have h1 := Admit_eq_of_single classes1 a claim d hres hop hobj hno hd
          have h2 := Admit_eq_of_single classes2 a claim d hres hop hobj hno hd2
          refine ⟨fun res => by rw [h1, h2], fun m1 hm => ?_⟩
          rw [h1] at hm
          exact Except.noConfusion hm
        | d1 :: d2 :: rest =>
          have hlen1 : 2 ≤ (defaultClasses classes1).length := by
            rw [hd]
            exact Nat.le_add_left 2 rest.length
          have hlen2 : 2 ≤ (defaultClasses classes2).length := by
            rw [← hp.length_eq]
            exact hlen1
          obtain ⟨m1, hm1⟩ := getDefaultClass_of_multi classes1 hlen1
          obtain ⟨m2, hm2⟩ := getDefaultClass_of_multi classes2 hlen2
          have h1 := Admit_eq_error_of_resolution classes1 a claim m1 hres hop
            hobj hno hm1
          have h2 := Admit_eq_error_of_resolution classes2 a claim m2 hres hop
            hobj hno hm2
          constructor
          · intro res
            rw [h1, h2]
            constructor <;> intro hx <;> exact Except.noConfusion hx
          · intro m hm
            exact ⟨m2, h2⟩

/-- C10 witness: swapping the two entries of a snapshot leaves the stamped
result unchanged. -/
theorem admit_snapshot_determines_outcome_witness :
    Admit [classWithNoDefault, defaultClass1] (pvcCreateAttrs claimWithNoClass)
      = Except.ok (APIObject.pvc (setClass claimWithNoClass "default1")) :=
  ((admit_snapshot_determines_outcome [defaultClass1, classWithNoDefault]
      [classWithNoDefault, defaultClass1] (pvcCreateAttrs claimWithNoClass)
      (List.Perm.swap classWithNoDefault defaultClass1 [])).1
    (APIObject.pvc (setClass claimWithNoClass "default1"))).mp rfl
